import Mathlib

set_option maxRecDepth 10000

/-!
Verification of the halken Game Boy emulator core against its
natural-language specification.

The development shallowly embeds the Go sources:
  * package cpu (concatenated into src/lcd/lcd.go): instruction semantics,
  * package lcd (src/lcd/lcd.go and src/unnamed/part_000): the video
    controller state machine and frame composition,
  * package mmu (src/mmu/mmu.go): cartridge loading.
Machine bytes are Nat with explicit mod-256 wrapping, 16-bit quantities are
Nat with explicit mod-65536 wrapping, and the Go int16 modeClock is Int with
explicit two's-complement wrapping.  Helper routines that the sources call
but whose definitions live in repository files outside src/ (the Regs flag
setters, the per-byte stack helpers, the interrupt service routines RST40
and RST50) are modelled from the specification and are marked as such in
their doc comments.  All definitions come first, followed by the theorems.
-/

namespace Halken

namespace Cpu

/-- Modelled from the spec: the flag setter helpers of the Regs struct
(called throughout package cpu, defined in a repository file outside src/).
Per the spec's data model and glossary the flags byte packs
Zero/Subtract/HalfCarry/Carry into bits 7/6/5/4.  setZero sets bit 7. -/
def setZero (f : Nat) : Nat := f ||| 128

/-- Modelled from the spec: clearZero clears flag bit 7. -/
def clearZero (f : Nat) : Nat := f &&& 127

/-- Modelled from the spec: setSubtract sets flag bit 6. -/
def setSubtract (f : Nat) : Nat := f ||| 64

/-- Modelled from the spec: clearSubtract clears flag bit 6. -/
def clearSubtract (f : Nat) : Nat := f &&& 191

/-- Modelled from the spec: setHalfCarry sets flag bit 5. -/
def setHalfCarry (f : Nat) : Nat := f ||| 32

/-- Modelled from the spec: clearHalfCarry clears flag bit 5. -/
def clearHalfCarry (f : Nat) : Nat := f &&& 223

/-- Modelled from the spec: setCarry sets flag bit 4. -/
def setCarry (f : Nat) : Nat := f ||| 16

/-- Modelled from the spec: clearCarry clears flag bit 4. -/
def clearCarry (f : Nat) : Nat := f &&& 239

/-- Embedding of `ADDrr` (src/lcd/lcd.go lines 700-732, package cpu).
The Go function adds the byte `*reg2` to `*reg1`, writes the result into
`*reg1` and updates the flags byte (Z0HC).  Here it takes the two operand
byte values and the current flags byte and returns the new `*reg1` value
paired with the new flags byte.  `hc` is computed before the write-back,
exactly as in the source, so the embedding is faithful even when both
pointers alias the same register. -/
def ADDrr (r1 r2 f : Nat) : Nat × Nat :=
  let oldVal := r1
  let result := (r1 + r2) % 256
  let hc := ((r1 % 16 + r2 % 16) &&& 16) = 16
  let r1' := result
  let f1 := if r1' = 0 then setZero f else clearZero f
  let f2 := if r1' < oldVal then setCarry f1 else clearCarry f1
  let f3 := if hc then setHalfCarry f2 else clearHalfCarry f2
  (r1', clearSubtract f3)

/-- Operand registers of the 8-bit register-operand instructions.  The flags
byte is not an instruction operand, so it is not listed here; it lives in the
`f` field of `GBRegisters`. -/
inductive Reg8 where
  | A | B | C | D | E | H | L
deriving DecidableEq

/-- Register file of the CPU (the Regs struct of package cpu, whose
declaration lives outside src/): eight 8-bit registers and the 16-bit stack
pointer, all as Nat with explicit wrapping at the use sites. -/
structure GBRegisters where
  a : Nat
  b : Nat
  c : Nat
  d : Nat
  e : Nat
  h : Nat
  l : Nat
  f : Nat
  sp : Nat
deriving DecidableEq

/-- Reads an operand register, mirroring a Go read through a `*byte` that
points at the corresponding Regs field. -/
def getReg (st : GBRegisters) : Reg8 → Nat
  | .A => st.a
  | .B => st.b
  | .C => st.c
  | .D => st.d
  | .E => st.e
  | .H => st.h
  | .L => st.l

/-- Writes an operand register, mirroring a Go write through a `*byte` that
points at the corresponding Regs field. -/
def setReg (st : GBRegisters) : Reg8 → Nat → GBRegisters
  | .A, v => { st with a := v }
  | .B, v => { st with b := v }
  | .C, v => { st with c := v }
  | .D, v => { st with d := v }
  | .E, v => { st with e := v }
  | .H, v => { st with h := v }
  | .L, v => { st with l := v }

/-- Embedding of `SUBr` (src/lcd/lcd.go lines 1202-1232, package cpu).
As in the source, the difference `A - reg` is written into the OPERAND
register (`*reg = gbcpu.Regs.a - *reg`), not into the accumulator; `hc` is
computed before the write-back and the zero/carry checks read the operand
register after it.  Byte subtraction wraps mod 256. -/
def SUBr (r : Reg8) (st : GBRegisters) : GBRegisters :=
  let oldVal := getReg st r
  let hc := ((st.a % 16 + 256 - getReg st r % 16) % 256) &&& 16 = 16
  let st1 := setReg st r ((st.a + 256 - getReg st r) % 256)
  let v := getReg st1 r
  let f1 := if v = 0 then setZero st1.f else clearZero st1.f
  let f2 := if oldVal < v then setCarry f1 else clearCarry f1
  let f3 := if hc then setHalfCarry f2 else clearHalfCarry f2
  { st1 with f := setSubtract f3 }

/-- Register pairs addressed by the 16-bit stack instructions PUSHrr/POPrr
(the Go code passes the two component registers as a pointer pair; AF pairs
the accumulator with the flags byte). -/
inductive RegPair where
  | AF | BC | DE | HL
deriving DecidableEq

/-- High (first) component byte of a register pair. -/
def getPairHi (st : GBRegisters) : RegPair → Nat
  | .AF => st.a
  | .BC => st.b
  | .DE => st.d
  | .HL => st.h

/-- Low (second) component byte of a register pair. -/
def getPairLo (st : GBRegisters) : RegPair → Nat
  | .AF => st.f
  | .BC => st.c
  | .DE => st.e
  | .HL => st.l

/-- Writes the high component byte of a register pair. -/
def setPairHi (st : GBRegisters) : RegPair → Nat → GBRegisters
  | .AF, v => { st with a := v }
  | .BC, v => { st with b := v }
  | .DE, v => { st with d := v }
  | .HL, v => { st with h := v }

/-- Writes the low component byte of a register pair. -/
def setPairLo (st : GBRegisters) : RegPair → Nat → GBRegisters
  | .AF, v => { st with f := v }
  | .BC, v => { st with c := v }
  | .DE, v => { st with e := v }
  | .HL, v => { st with l := v }

/-- CPU register file together with the memory the stack lives in
(GbMMU.Memory, addressed by Nat). -/
structure CpuState where
  regs : GBRegisters
  mem : Nat → Nat

/-- Pointwise update of the byte memory. -/
def memUpdate (m : Nat → Nat) (addr v : Nat) : Nat → Nat :=
  fun x => if x = addr then v else m x

/-- Modelled from the spec: pushByteToStack (called by PUSHrr and CALLaa,
declared in a repository file outside src/).  Per spec section 4.1 a stack
push decrements the stack pointer by exactly 1 per byte and stores the byte
at the new SP.  SP wraps as a Go uint16. -/
def pushByteToStack (b : Nat) (st : CpuState) : CpuState :=
  let sp' := (st.regs.sp + 65535) % 65536
  { regs := { st.regs with sp := sp' }, mem := memUpdate st.mem sp' b }

/-- Modelled from the spec: popByteFromStack (called by POPrr and RET,
declared outside src/): reads the byte at SP and increments the stack
pointer by exactly 1. -/
def popByteFromStack (st : CpuState) : Nat × CpuState :=
  (st.mem st.regs.sp,
   { st with regs := { st.regs with sp := (st.regs.sp + 1) % 65536 } })

/-- Embedding of `PUSHrr` (src/lcd/lcd.go lines 1501-1504, package cpu):
pushes the first (high) register byte, then the second (low) one. -/
def PUSHrr (p : RegPair) (st : CpuState) : CpuState :=
  pushByteToStack (getPairLo st.regs p) (pushByteToStack (getPairHi st.regs p) st)

/-- Embedding of `POPrr` (src/lcd/lcd.go lines 1877-1886, package cpu):
pops b1 then b2, writes b2 into the first (high) register and b1 into the
second (low) one, and finally masks the low nibble of the flags byte
(`Regs.f &= 0xF0`), unconditionally. -/
def POPrr (p : RegPair) (st : CpuState) : CpuState :=
  let r1 := popByteFromStack st
  let b1 := r1.1
  let r2 := popByteFromStack r1.2
  let b2 := r2.1
  let st2 := r2.2
  let regs1 := setPairHi st2.regs p b2
  let regs2 := setPairLo regs1 p b1
  { st2 with regs := { regs2 with f := regs2.f &&& 0xF0 } }

/-- Concrete machine state for exercising the push/pop round trip:
B = 0x12, C = 0x0F (low nibble set), SP = 0xFFF0, zeroed memory. -/
def c6State : CpuState :=
  CpuState.mk (GBRegisters.mk 0 0x12 0x0F 0 0 0 0 0 0xFFF0) (fun _ => 0)

/-- Concrete register file for exercising SUBr: A = 0x34, B = 0x12. -/
def regsC10 : GBRegisters := GBRegisters.mk 0x34 0x12 0 0 0 0 0 0 0

end Cpu

namespace Sched

open Cpu (memUpdate)

/-- State the frame scheduler's interrupt dispatch acts on: the master-enable
flag IME, the program counter and stack-pointer registers, and the memory
holding the enable mask (0xFFFE, as addressed by the source), the request
flags (0xFF0F) and the stack. -/
structure SchedState where
  ime : Nat
  pc : Nat
  sp : Nat
  mem : Nat → Nat

/-- Embedding of `RST` (src/lcd/lcd.go lines 674-679, package cpu): computes
PC+3 and writes it into the SP REGISTER (`PutUint16(gbcpu.Regs.sp, val)` is
a write to the register slice, not a push to memory), then sets PC to
`[imm, 0x00]` little-endian, i.e. to imm. -/
def RST (imm : Nat) (st : SchedState) : SchedState :=
  { st with sp := (st.pc + 3) % 65536, pc := imm % 256 }

/-- Modelled from the spec: RST40, the CPU Engine's interrupt-service
behavior invoked for the first wired interrupt (declared in a repository
file outside src/).  Per spec sections 3 and 4.2(d) it clears the
master-enable flag, pushes the current program counter onto the stack
(two bytes, SP decremented by 2) and jumps to the fixed vector 0x40. -/
def RST40 (st : SchedState) : SchedState :=
  let sp1 := (st.sp + 65535) % 65536
  let sp2 := (sp1 + 65535) % 65536
  { ime := 0, pc := 0x40, sp := sp2,
    mem := memUpdate (memUpdate st.mem sp1 (st.pc / 256 % 256)) sp2 (st.pc % 256) }

/-- Modelled from the spec: RST50, the service behavior for the second wired
interrupt (declared outside src/); same as RST40 with the fixed vector the
source's name indicates, 0x50. -/
def RST50 (st : SchedState) : SchedState :=
  let sp1 := (st.sp + 65535) % 65536
  let sp2 := (sp1 + 65535) % 65536
  { ime := 0, pc := 0x50, sp := sp2,
    mem := memUpdate (memUpdate st.mem sp1 (st.pc / 256 % 256)) sp2 (st.pc % 256) }

/-- Embedding of the interrupt-dispatch tail of a scheduler step
(src/lcd/lcd.go lines 131-145, Update): when IME, the enable-mask byte and
the request byte are all nonzero, the masked requests are tested; bit 0
invokes RST40 and XORs bit 0 of the request byte, else bit 2 invokes RST50
and XORs bit 1 of the request byte. -/
def serviceInterrupts (st : SchedState) : SchedState :=
  if st.ime ≠ 0 ∧ st.mem 0xFFFE ≠ 0 ∧ st.mem 0xFF0F ≠ 0 then
    let interrupt := st.mem 0xFFFE &&& st.mem 0xFF0F
    if interrupt &&& 1 ≠ 0 then
      let st1 := RST40 st
      { st1 with mem := memUpdate st1.mem 0xFF0F (st1.mem 0xFF0F ^^^ 1) }
    else if interrupt &&& 4 ≠ 0 then
      let st1 := RST50 st
      { st1 with mem := memUpdate st1.mem 0xFF0F (st1.mem 0xFF0F ^^^ 2) }
    else st
  else st

/-- Memory with enable mask 0xFF at 0xFFFE and request flags 0x04 (only bit
2 set, bits 0 and 1 clear) at 0xFF0F. -/
def bugMem : Nat → Nat :=
  fun a => if a = 0xFFFE then 0xFF else if a = 0xFF0F then 4 else 0

/-- Scheduler state with IME active, PC = 0x1234, SP = 0xFFF0 over
`bugMem`. -/
def bugState : SchedState := SchedState.mk 1 0x1234 0xFFF0 bugMem

/-- CPU-side control bits read by the scheduler prelude. -/
structure CpuCtl where
  ime : Nat
  eiReceived : Bool
  halted : Bool
deriving DecidableEq

/-- Embedding of `EI` (src/lcd/lcd.go lines 1888-1891, package cpu): the
body is an empty TODO stub, so executing EI leaves the CPU state
unchanged; in particular it never raises an enable request. -/
def EI (st : CpuCtl) : CpuCtl := st

/-- Embedding of the start of a scheduler step (src/lcd/lcd.go lines 95-98,
Update): when the CPU is not halted, a pending enable request (EIReceived)
activates the master-enable flag before the next opcode is fetched. -/
def schedulerPrelude (st : CpuCtl) : CpuCtl :=
  if ¬st.halted then (if st.eiReceived then { st with ime := 1 } else st) else st

end Sched

namespace Mmu

/-- Parsed cartridge record (the cartcon.Cartridge struct, declared outside
src/; the fields are exactly those LoadCart assigns).  The Go field `Type`
is rendered `typ`; the title is the raw byte string the source stores. -/
structure Cartridge where
  MBC : List Nat
  Title : List Nat
  CGBFlag : Nat
  typ : Nat
  ROMSize : Nat
  RAMSize : Nat
deriving DecidableEq

/-- Outcome of LoadCart on an in-memory image: a parsed cartridge, or a Go
runtime panic raised by an out-of-range slice or index expression. -/
inductive LoadResult where
  | ok : Cartridge → LoadResult
  | panic : LoadResult
deriving DecidableEq

/-- Embedding of `LoadCart` (src/mmu/mmu.go lines 27-45) applied to an
already-read image (the ioutil.ReadFile error path is host I/O and outside
this model).  The source slices cartData[0x0134:0x0143] into the title with
no trimming and indexes bytes 0x0143, 0x0147, 0x0148, 0x0149; when the image
is shorter than 0x014A bytes one of these expressions aborts with a runtime
out-of-range panic, and no error value is ever constructed for a short
image. -/
def LoadCart (cartData : List Nat) : LoadResult :=
  if 0x0149 < cartData.length then
    .ok { MBC := cartData
          Title := (cartData.drop 0x0134).take 15
          CGBFlag := cartData.getD 0x0143 0
          typ := cartData.getD 0x0147 0
          ROMSize := cartData.getD 0x0148 0
          RAMSize := cartData.getD 0x0149 0 }
  else
    .panic

/-- Title field of a load outcome (empty on panic). -/
def titleOf : LoadResult → List Nat
  | .ok c => c.Title
  | .panic => []

/-- Whether the load produced a cartridge. -/
def loadOk : LoadResult → Bool
  | .ok _ => true
  | .panic => false

/-- Concrete 330-byte (0x014A) cartridge image whose bytes at offset 0x0134
spell TEST (84, 69, 83, 84) followed by null bytes. -/
def testImg : List Nat :=
  List.replicate 308 0 ++ (84 :: 69 :: 83 :: 84 :: List.replicate 18 0)

end Mmu

namespace Ppu

/-- State of the video controller of src/unnamed/part_000 (package lcd)
together with the LCD-related bytes of GbMMU.Memory it reads and writes:
the control register 0xFF40, the status register 0xFF41, the scanline
register 0xFF44, the line-compare register 0xFF45 and the interrupt request
register 0xFF0F.  modeClock is a Go int16, embedded as Int with explicit
two's-complement wrapping; currentLine is a uint16; the memory cells are
bytes. -/
structure LCDState where
  mode : Nat
  modeClock : Int
  currentLine : Nat
  lcdc : Nat
  stat : Nat
  ly : Nat
  lyc : Nat
  iflag : Nat
deriving DecidableEq

/-- Two's-complement wrap of an Int into the int16 range. -/
def i16wrap (n : Int) : Int := (n + 32768) % 65536 - 32768

/-- Embedding of `setLCDInterrupt` (src/unnamed/part_000 lines 355-357):
sets bit 1 of the interrupt request register 0xFF0F. -/
def setLCDInterrupt (st : LCDState) : LCDState :=
  { st with iflag := st.iflag ||| 2 }

/-- Embedding of `setLCDStatus` (src/unnamed/part_000 lines 365-464): the
four-mode state machine switch followed by the LY/LYC coincidence check.
Field-update order follows the source statement order; `&^` on bytes is
embedded as masking with the complementary byte constant. -/
def setLCDStatus (st : LCDState) : LCDState :=
  let stA :=
    if st.mode = 0 then
      if st.modeClock ≥ 204 then
        let line := (st.currentLine + 1) % 65536
        let st1 := { st with modeClock := 0, currentLine := line,
                             ly := (st.ly + 1) % 256 }
        if line = 143 then
          let st2 := { st1 with mode := 1,
                                stat := (st1.stat ||| 1) &&& 253,
                                iflag := st1.iflag ||| 1 }
          if st2.stat &&& 16 ≠ 0 then setLCDInterrupt st2 else st2
        else
          let st2 := { st1 with stat := (st1.stat &&& 254) ||| 2 }
          let st3 := if st2.stat &&& 32 ≠ 0 then setLCDInterrupt st2 else st2
          { st3 with mode := 2 }
      else st
    else if st.mode = 1 then
      if st.modeClock ≥ 456 then
        let line := (st.currentLine + 1) % 65536
        let st1 := { st with modeClock := 0, currentLine := line,
                             ly := (st.ly + 1) % 256 }
        if 153 < line then
          let st2 := { st1 with stat := (st1.stat &&& 254) ||| 2 }
          let st3 := if st2.stat &&& 32 ≠ 0 then setLCDInterrupt st2 else st2
          { st3 with mode := 2, ly := 0, currentLine := 0 }
        else st1
      else st
    else if st.mode = 2 then
      if st.modeClock ≥ 80 then
        { st with modeClock := 0, stat := (st.stat ||| 1) ||| 2, mode := 3 }
      else st
    else if st.mode = 3 then
      if st.modeClock ≥ 172 then
        let st1 := { st with modeClock := 0, stat := (st.stat &&& 254) &&& 253 }
        let st2 := if st1.stat &&& 8 ≠ 0 then setLCDInterrupt st1 else st1
        { st2 with mode := 0 }
      else st
    else st
  if stA.ly = stA.lyc then
    let stB := { stA with stat := stA.stat ||| 4 }
    if stB.stat &&& 64 ≠ 0 then setLCDInterrupt stB else stB
  else
    { stA with stat := stA.stat &&& 251 }

/-- Embedding of `lcdEnabled` (src/unnamed/part_000 lines 68-74): 1 when bit
7 of the control register is set, else 0. -/
def lcdEnabled (st : LCDState) : Nat :=
  if st.lcdc &&& 128 ≠ 0 then 1 else 0

/-- Embedding of `UpdateLCD` (src/unnamed/part_000 lines 97-109): when the
display is disabled the mode clock, line counter and scanline register are
zeroed and the status register forced to 0x80; otherwise the cycles are
added to the mode clock (both the Go int16 conversion and the int16
addition wrap) and the status machine runs once. -/
def UpdateLCD (cycles : Int) (st : LCDState) : LCDState :=
  if lcdEnabled st = 0 then
    { st with modeClock := 0, currentLine := 0, ly := 0, stat := 0x80 }
  else
    setLCDStatus { st with modeClock := i16wrap (st.modeClock + i16wrap cycles) }

/-- Color quadruples of the fixed 4-entry palette of renderTile
(src/unnamed/part_000 lines 258-263); indices other than 0-3 cannot arise
from a 2-bit color. -/
def palette : Nat → Nat × Nat × Nat × Nat
  | 0 => (205, 255, 205, 255)
  | 1 => (120, 170, 120, 255)
  | 2 => (35, 85, 35, 255)
  | _ => (0, 0, 0, 255)

/-- Pixel of a decoded tile: position within the tile plus RGBA color (the
Pixel struct of src/unnamed/part_000 lines 29-32). -/
structure Pixel where
  x : Nat
  y : Nat
  color : Nat × Nat × Nat × Nat
deriving DecidableEq

/-- Embedding of `getTileMap` (src/unnamed/part_000 lines 79-90): when the
given control-register bit is set, returns the slice
GbMMU.Memory[0x9C00:0x9FFF], else GbMMU.Memory[0x9800:0x9C00]. -/
def getTileMap (mem : Nat → Nat) (identifier : Nat) : List Nat :=
  if mem 0xFF40 &&& (1 <<< identifier) ≠ 0 then
    (List.range (0x9FFF - 0x9C00)).map (fun i => mem (0x9C00 + i))
  else
    (List.range (0x9C00 - 0x9800)).map (fun i => mem (0x9800 + i))

/-- Embedding of `renderTile` (src/unnamed/part_000 lines 251-353) for the
byte-valued tile identifiers the callers pass: resolves the tile data
address using unsigned or signed indexing, then decodes 8 lines of 2 bytes
into pixels, skipping color 0 for sprites and applying the X/Y flip
attribute bits. -/
def renderTile (mem : Nat → Nat) (tileID : Nat) (attrs : Nat) (sprites : Bool) :
    List Pixel :=
  let loTiles := mem 0xFF40 &&& 16 ≠ 0
  let addr :=
    if loTiles ∨ sprites then 0x8000 + tileID * 16
    else if 127 < tileID then 0x8800 + (tileID - 128) * 16
    else 0x8800 + (tileID + 128) * 16
  (List.range 8).flatMap (fun line =>
    let hi := mem (addr + line * 2)
    let lo := mem (addr + line * 2 + 1)
    (List.range 8).filterMap (fun pix =>
      let hiBit := (lo >>> (7 - pix)) &&& 1
      let loBit := (hi >>> (7 - pix)) &&& 1
      let colorIndex := loBit + hiBit * 2
      if sprites ∧ colorIndex = 0 then none
      else if attrs &&& 64 ≠ 0 ∧ attrs &&& 32 ≠ 0 then
        some (Pixel.mk (8 - pix) (8 - line) (palette colorIndex))
      else if attrs &&& 64 ≠ 0 then
        some (Pixel.mk pix (8 - line) (palette colorIndex))
      else if attrs &&& 32 ≠ 0 then
        some (Pixel.mk (8 - pix) line (palette colorIndex))
      else
        some (Pixel.mk pix line (palette colorIndex))))

/-- Embedding of `populateTiles` (src/unnamed/part_000 lines 127-143):
resolves every identifier of the selected tile map (control-register bit 6
for the window, bit 3 for the background) into a tile. -/
def populateTiles (mem : Nat → Nat) (window : Bool) : List (List Pixel) :=
  (getTileMap mem (if window then 6 else 3)).map
    (fun tileID => renderTile mem tileID 0 false)

/-- Embedding of `generateBackgroundImage` (src/unnamed/part_000 lines
147-159): places every pixel of tile i at its tile position offset by
column (i mod 32) times 8 and row (i div 32) times 8; the 256x256 image is
embedded as the list of Set calls it receives. -/
def generateBackgroundImage (bgTiles : List (List Pixel)) :
    List (Nat × Nat × (Nat × Nat × Nat × Nat)) :=
  bgTiles.enum.flatMap (fun it =>
    it.2.map (fun px => (px.x + it.1 % 32 * 8, px.y + it.1 / 32 * 8, px.color)))

/-- Controller state in HBlank with a full mode clock at line 142 (display
enabled, all status interrupt enables clear, LYC far away). -/
def c4Entry : LCDState := LCDState.mk 0 204 142 128 0 142 200 0

/-- Controller state in HBlank with a full mode clock at line 143. -/
def c4NonEntry : LCDState := LCDState.mk 0 204 143 128 0 143 200 0

/-- Controller state at OAM-scan start: mode 2, mode clock 0, scanline 0,
display enabled, status enables clear, LYC = 5, no pending requests. -/
def c5Start : LCDState := LCDState.mk 2 0 0 128 0 0 5 0

/-- Memory whose control register 0xFF40 has bit 3 set (alternate background
map selected) and is zero elsewhere. -/
def altMapMem : Nat → Nat := fun a => if a = 0xFF40 then 8 else 0

/-- Memory that is identically zero (primary background map selected). -/
def priMapMem : Nat → Nat := fun _ => 0

end Ppu

/-! Theorems. -/

/-- ORing in a constant sharing no bits with the mask does not change a
masked value. -/
theorem lor_land_eq (x a b : Nat) (h : a &&& b = 0) :
    (x ||| a) &&& b = x &&& b := by
  apply Nat.eq_of_testBit_eq
  intro i
  have h' : (a &&& b).testBit i = Nat.testBit 0 i := by rw [h]
  simp only [Nat.testBit_land, Nat.testBit_lor, Nat.zero_testBit] at h' ⊢
  cases ha : a.testBit i <;> cases hb : b.testBit i <;> simp_all

/-- ANDing with a constant containing all bits of the mask does not change a
masked value. -/
theorem land_land_eq (x a b : Nat) (h : a &&& b = b) :
    (x &&& a) &&& b = x &&& b := by
  rw [Nat.land_assoc, h]

namespace Cpu

theorem getReg_setReg (st : GBRegisters) (r : Reg8) (v : Nat) :
    getReg (setReg st r v) r = v := by cases r <;> rfl

theorem setReg_a (st : GBRegisters) (r : Reg8) (v : Nat) (hr : r ≠ Reg8.A) :
    (setReg st r v).a = st.a := by cases r <;> simp_all [setReg]

theorem setReg_f (st : GBRegisters) (r : Reg8) (v : Nat) :
    (setReg st r v).f = st.f := by cases r <;> rfl

theorem getReg_fupd (st : GBRegisters) (r : Reg8) (x : Nat) :
    getReg { st with f := x } r = getReg st r := by cases r <;> rfl

/-- A byte value masked to bit 4 equals 16 exactly when the value exceeds 15
(valid below 32, the range of a nibble sum). -/
theorem land_sixteen_iff (x : Nat) (h : x < 32) : (x &&& 16 = 16) ↔ 15 < x := by
  interval_cases x <;> decide

/-- The wrapped byte sum is below the first summand exactly when the true
sum overflows a byte. -/
theorem addmod_lt_iff (r1 r2 : Nat) (h1 : r1 < 256) (h2 : r2 < 256) :
    (r1 + r2) % 256 < r1 ↔ 255 < r1 + r2 := by
  rcases Nat.lt_or_ge (r1 + r2) 256 with h | h
  · rw [Nat.mod_eq_of_lt h]; omega
  · have h3 : (r1 + r2) % 256 = r1 + r2 - 256 := by
      rw [Nat.mod_eq_sub_mod h, Nat.mod_eq_of_lt (by omega)]
    omega

/-- The wrapped byte difference of two nibbles has bit 4 set exactly when
the subtrahend nibble exceeds the minuend nibble (a borrow). -/
theorem subnib_iff (la lr : Nat) (h1 : la < 16) (h2 : lr < 16) :
    (((la + 256 - lr) % 256) &&& 16 = 16) ↔ la < lr := by
  interval_cases la <;> interval_cases lr <;> decide

/-- C2: for every pair of 8-bit operand values and any incoming flags byte,
the register-register add instruction ADDrr sets the Carry flag (bit 4)
exactly when the unsigned sum of the operands exceeds 255, and sets the
HalfCarry flag (bit 5) exactly when the sum of the operands' low nibbles
exceeds 15. -/
theorem C2_ADDrr_carry_halfCarry (r1 r2 f : Nat) (h1 : r1 < 256) (h2 : r2 < 256) :
    ((Nat.testBit (ADDrr r1 r2 f).2 4 = true) ↔ 255 < r1 + r2) ∧
    ((Nat.testBit (ADDrr r1 r2 f).2 5 = true) ↔ 15 < r1 % 16 + r2 % 16) := by
  have hmod := addmod_lt_iff r1 r2 h1 h2
  have hhc := land_sixteen_iff (r1 % 16 + r2 % 16) (by omega)
  unfold ADDrr
  simp only [hmod, hhc]
  constructor
  · split_ifs with hz hc hh hh hc hh hh <;>
      simp +decide [setZero, clearZero, setCarry, clearCarry, setHalfCarry,
        clearHalfCarry, clearSubtract, Nat.testBit_lor, Nat.testBit_land, hc]
  · split_ifs with hz hc hh hh hc hh hh <;>
      simp +decide [setZero, clearZero, setCarry, clearCarry, setHalfCarry,
        clearHalfCarry, clearSubtract, Nat.testBit_lor, Nat.testBit_land, hz]

/-- Witness for C2 at the concrete operands 200 and 100 (sum 300 overflows,
low nibbles 8 and 4 do not). -/
theorem C2_ADDrr_carry_halfCarry_witness :
    ((Nat.testBit (ADDrr 200 100 0).2 4 = true) ↔ 255 < 200 + 100) ∧
    ((Nat.testBit (ADDrr 200 100 0).2 5 = true) ↔ 15 < 200 % 16 + 100 % 16) :=
  C2_ADDrr_carry_halfCarry 200 100 0 (by decide) (by decide)

/-- C10: for every starting register state with byte-valued accumulator and
operand and the operand register distinct from the accumulator, SUBr writes
the wrapped difference accumulator-minus-operand into the operand register,
leaves the accumulator unchanged, and computes the flags from that
difference: Zero is set exactly when the difference is zero, Subtract is
set, HalfCarry is set exactly when the operand's low nibble exceeds the
accumulator's (the nibble borrow of the difference), and Carry is set
exactly when the difference exceeds the original operand (the source's
carry test on the difference). -/
theorem C10_SUBr_correct (st : GBRegisters) (r : Reg8) (hr : r ≠ Reg8.A)
    (ha : st.a < 256) (hv : getReg st r < 256) :
    getReg (SUBr r st) r = (st.a + 256 - getReg st r) % 256 ∧
    (SUBr r st).a = st.a ∧
    (Nat.testBit (SUBr r st).f 7 = true ↔ (st.a + 256 - getReg st r) % 256 = 0) ∧
    Nat.testBit (SUBr r st).f 6 = true ∧
    (Nat.testBit (SUBr r st).f 5 = true ↔ st.a % 16 < getReg st r % 16) ∧
    (Nat.testBit (SUBr r st).f 4 = true ↔
      getReg st r < (st.a + 256 - getReg st r) % 256) := by
  have hhc := subnib_iff (st.a % 16) (getReg st r % 16)
    (Nat.mod_lt _ (by omega)) (Nat.mod_lt _ (by omega))
  refine ⟨?_, ?_, ?_⟩
  · unfold SUBr
    simp [getReg_fupd, getReg_setReg]
  · unfold SUBr
    simp [setReg_a, hr]
  · unfold SUBr
    simp only [getReg_setReg, setReg_f, getReg_fupd, hhc]
    split_ifs <;>
      simp_all +decide [setZero, clearZero, setCarry, clearCarry, setHalfCarry,
        clearHalfCarry, setSubtract, Nat.testBit_lor, Nat.testBit_land]

/-- Witness for C10 at A = 0x34, operand register B = 0x12. -/
theorem C10_SUBr_correct_witness :
    getReg (SUBr Reg8.B regsC10) Reg8.B
      = (regsC10.a + 256 - getReg regsC10 Reg8.B) % 256 ∧
    (SUBr Reg8.B regsC10).a = regsC10.a ∧
    (Nat.testBit (SUBr Reg8.B regsC10).f 7 = true ↔
      (regsC10.a + 256 - getReg regsC10 Reg8.B) % 256 = 0) ∧
    Nat.testBit (SUBr Reg8.B regsC10).f 6 = true ∧
    (Nat.testBit (SUBr Reg8.B regsC10).f 5 = true ↔
      regsC10.a % 16 < getReg regsC10 Reg8.B % 16) ∧
    (Nat.testBit (SUBr Reg8.B regsC10).f 4 = true ↔
      getReg regsC10 Reg8.B < (regsC10.a + 256 - getReg regsC10 Reg8.B) % 256) :=
  C10_SUBr_correct regsC10 Reg8.B (by decide) (by decide) (by decide)

/-- C6 counterexample: pushing pair BC (with C = 0x0F) and popping into the
different pair AF does not leave the destination pair byte-identical to the
source pair; the popped low byte lands in the flags register and its low
nibble is masked away, so F ends as 0x00 while C was 0x0F. -/
theorem C6_push_pop_counterexample :
    getPairLo (POPrr RegPair.AF (PUSHrr RegPair.BC c6State)).regs RegPair.AF
      ≠ getPairLo c6State.regs RegPair.BC := by decide

/-- C6 (amended): pushing a register pair and popping into a different pair
restores the stack pointer (down 2 then up 2) and leaves the destination
pair byte-identical to the source pair whenever the destination is not AF;
when the destination is AF the high byte matches and the low byte is the
pushed low byte with its low nibble cleared by POPrr's flags mask. -/
theorem C6_push_pop_roundtrip (st : CpuState) (src dst : RegPair)
    (hne : dst ≠ src) (hsp : st.regs.sp < 65536) :
    ((POPrr dst (PUSHrr src st)).regs.sp = st.regs.sp) ∧
    (dst ≠ RegPair.AF →
      getPairHi (POPrr dst (PUSHrr src st)).regs dst = getPairHi st.regs src ∧
      getPairLo (POPrr dst (PUSHrr src st)).regs dst = getPairLo st.regs src) ∧
    (dst = RegPair.AF →
      (POPrr dst (PUSHrr src st)).regs.a = getPairHi st.regs src ∧
      (POPrr dst (PUSHrr src st)).regs.f = getPairLo st.regs src &&& 240) := by
  obtain ⟨⟨ra, rb, rc, rd, re, rh, rl, rf, rsp⟩, m⟩ := st
  simp only at hsp
  have e1 : (((rsp + 65535) % 65536 + 65535) % 65536 + 1) % 65536
      = (rsp + 65535) % 65536 := by omega
  have e2 : ((rsp + 65535) % 65536 + 1) % 65536 = rsp := by omega
  have e3 : (rsp + 65535) % 65536 ≠ ((rsp + 65535) % 65536 + 65535) % 65536 := by
    omega
  cases dst <;>
    simp only [POPrr, PUSHrr, pushByteToStack, popByteFromStack, memUpdate,
      getPairHi, getPairLo, setPairHi, setPairLo] <;>
    simp_all [e1, e2, e3]

/-- Witness for the C6 round trip: push BC, pop into DE on the concrete
state c6State. -/
theorem C6_push_pop_roundtrip_witness :
    ((POPrr RegPair.DE (PUSHrr RegPair.BC c6State)).regs.sp
      = c6State.regs.sp) ∧
    (RegPair.DE ≠ RegPair.AF →
      getPairHi (POPrr RegPair.DE (PUSHrr RegPair.BC c6State)).regs RegPair.DE
        = getPairHi c6State.regs RegPair.BC ∧
      getPairLo (POPrr RegPair.DE (PUSHrr RegPair.BC c6State)).regs RegPair.DE
        = getPairLo c6State.regs RegPair.BC) ∧
    (RegPair.DE = RegPair.AF →
      (POPrr RegPair.DE (PUSHrr RegPair.BC c6State)).regs.a
        = getPairHi c6State.regs RegPair.BC ∧
      (POPrr RegPair.DE (PUSHrr RegPair.BC c6State)).regs.f
        = getPairLo c6State.regs RegPair.BC &&& 240) :=
  C6_push_pop_roundtrip c6State RegPair.BC RegPair.DE (by decide) (by decide)

end Cpu

namespace Sched

/-- C1: at the concrete state bugState the master flag, the enable mask and
the request register are all active but only request bit 2 is set; the
dispatch nevertheless services the second interrupt (jumping to vector
0x50), leaves the tested request bit 2 set and TOGGLES ON the previously
clear bit 1 (request register 0x04 becomes 0x06) instead of clearing the
serviced interrupt's own request bit.  Moreover the in-src RST helper
overwrites the SP register with PC+3 (no bytes are stored below the old
stack top) rather than pushing the program counter. -/
theorem C1_interrupt_dispatch_bug :
    bugState.mem 0xFF0F &&& 2 = 0 ∧
    (serviceInterrupts bugState).pc = 0x50 ∧
    (serviceInterrupts bugState).mem 0xFF0F = 6 ∧
    (serviceInterrupts bugState).mem 0xFF0F &&& 2 ≠ 0 ∧
    (serviceInterrupts bugState).mem 0xFF0F &&& 4 ≠ 0 ∧
    (RST 0x40 bugState).sp = 0x1237 ∧
    (RST 0x40 bugState).pc = 0x40 ∧
    (RST 0x40 bugState).mem 0xFFEF = 0 ∧
    (RST 0x40 bugState).mem 0xFFEE = 0 := by
  refine ⟨?_, ?_, ?_, ?_, ?_, ?_, ?_, ?_, ?_⟩ <;> decide

/-- C3: the EI instruction is an empty stub, so executing it changes
nothing; starting from master-enable inactive with no pending request,
the master flag is still inactive at the start of the next scheduler step.
The scheduler's own activation check does work when the request flag is
already set, confirming that the latency mechanism exists but is never
triggered by EI. -/
theorem C3_EI_stub_no_enable :
    EI (CpuCtl.mk 0 false false) = CpuCtl.mk 0 false false ∧
    (schedulerPrelude (EI (CpuCtl.mk 0 false false))).ime = 0 ∧
    (schedulerPrelude (CpuCtl.mk 0 true false)).ime = 1 := by decide

end Sched

namespace Mmu

/-- C7 counterexample: loading the concrete image testImg (TEST at offset
0x0134 followed by nulls) succeeds, but the parsed title is NOT the trimmed
byte string TEST; the source keeps the full untrimmed 15-byte slice. -/
theorem C7_title_counterexample :
    loadOk (LoadCart testImg) = true ∧
    titleOf (LoadCart testImg) ≠ [84, 69, 83, 84] := by
  constructor <;> decide

/-- C7 (amended): loading a cartridge image long enough for the header whose
bytes at offset 0x0134 spell TEST followed by null bytes yields, without
error, a parsed title equal to the full 15-byte header slice: TEST followed
by eleven null bytes, not trimmed. -/
theorem C7_title_amended (data : List Nat)
    (hlen : 0x0149 < data.length)
    (ht : (data.drop 0x0134).take 4 = [84, 69, 83, 84])
    (hz : (data.drop 0x0138).take 11 = List.replicate 11 0) :
    loadOk (LoadCart data) = true ∧
    titleOf (LoadCart data) = [84, 69, 83, 84] ++ List.replicate 11 0 := by
  unfold LoadCart
  rw [if_pos hlen]
  refine ⟨rfl, ?_⟩
  show (data.drop 0x0134).take 15 = _
  have e1 : (data.drop 0x0134).drop 4 = data.drop 0x0138 := by
    rw [List.drop_drop]
  have e2 : (15 : Nat) = 4 + 11 := rfl
  rw [e2, List.take_add, ht, e1, hz]

/-- Witness for C7 at the concrete image testImg. -/
theorem C7_title_witness :
    loadOk (LoadCart testImg) = true ∧
    titleOf (LoadCart testImg) = [84, 69, 83, 84] ++ List.replicate 11 0 :=
  C7_title_amended testImg (by decide) (by decide) (by decide)

/-- C8 counterexample: loading the empty image does not produce a reported
MalformedCartridge error value; it aborts with a Go runtime out-of-range
panic (the panic outcome of the embedding). -/
theorem C8_short_cart_counterexample : LoadCart [] = LoadResult.panic := by
  decide

/-- C8 (amended): for every cartridge image too short to contain the header
fields (shorter than 0x014A bytes), the load aborts with a runtime
out-of-range panic before any emulation executes; no cartridge and no error
value is ever produced for such an image. -/
theorem C8_short_cart_amended (data : List Nat) (hlen : data.length < 0x014A) :
    LoadCart data = LoadResult.panic ∧ loadOk (LoadCart data) = false := by
  unfold LoadCart
  rw [if_neg (by omega)]
  exact ⟨rfl, rfl⟩

/-- Witness for C8 at a concrete 100-byte image. -/
theorem C8_short_cart_witness :
    LoadCart (List.replicate 100 0) = LoadResult.panic ∧
    loadOk (LoadCart (List.replicate 100 0)) = false :=
  C8_short_cart_amended (List.replicate 100 0) (by decide)

end Mmu

namespace Ppu

/-- C4 counterexample: entry to mode 1 happens at the scanline 142-to-143
transition, not the 143-to-144 one: stepping the HBlank state at line 142
enters mode 1 (raising the VBlank request bit), while stepping the HBlank
state at line 143 advances the scanline to 144 and enters mode 2, not
mode 1. -/
theorem C4_mode1_entry_counterexample :
    c4Entry.currentLine = 142 ∧
    (setLCDStatus c4Entry).mode = 1 ∧
    (setLCDStatus c4Entry).currentLine = 143 ∧
    Nat.testBit (setLCDStatus c4Entry).iflag 0 = true ∧
    c4NonEntry.currentLine = 143 ∧
    (setLCDStatus c4NonEntry).mode = 2 ∧
    (setLCDStatus c4NonEntry).currentLine = 144 ∧
    Nat.testBit (setLCDStatus c4NonEntry).iflag 0 = false := by
  refine ⟨?_, ?_, ?_, ?_, ?_, ?_, ?_, ?_⟩ <;> decide

/-- C4 (amended): for every controller state in HBlank with a full mode
clock, the step enters mode 1 exactly when the incremented scanline counter
equals 143 (the 142-to-143 transition); on entry it sets the VBlank bit of
the interrupt request register unconditionally, and additionally sets the
LCD-status request bit when enable bit 4 of the status register is set. -/
theorem C4_mode1_entry_amended (st : LCDState) (hm : st.mode = 0)
    (hc : 204 ≤ st.modeClock) :
    ((setLCDStatus st).mode = 1 ↔ (st.currentLine + 1) % 65536 = 143) ∧
    ((st.currentLine + 1) % 65536 = 143 →
      Nat.testBit (setLCDStatus st).iflag 0 = true ∧
      (st.stat &&& 16 ≠ 0 → Nat.testBit (setLCDStatus st).iflag 1 = true)) := by
  obtain ⟨mode, clock, line, lcdc, stat, ly, lyc, iflag⟩ := st
  simp only at hm hc
  subst hm
  by_cases hline : (line + 1) % 65536 = 143 <;>
    simp +decide [setLCDStatus, setLCDInterrupt, hc, hline, lor_land_eq,
      land_land_eq, Nat.testBit_lor] <;>
    split_ifs <;>
    simp_all +decide [Nat.testBit_lor]

/-- Witness for C4 at the concrete HBlank state c4Entry (line 142). -/
theorem C4_mode1_entry_witness :
    ((setLCDStatus c4Entry).mode = 1 ↔ (c4Entry.currentLine + 1) % 65536 = 143) ∧
    ((c4Entry.currentLine + 1) % 65536 = 143 →
      Nat.testBit (setLCDStatus c4Entry).iflag 0 = true ∧
      (c4Entry.stat &&& 16 ≠ 0 →
        Nat.testBit (setLCDStatus c4Entry).iflag 1 = true)) :=
  C4_mode1_entry_amended c4Entry rfl (by decide)

/-- C5: starting the enabled controller at mode 2, scanline 0, mode clock
0, feeding exactly 80, then 172, then 204 cycles drives the mode through 3
and 0 and back to 2 with the scanline (both the internal counter and the
LY register) at 1; and when the status-interrupt enable bits 3, 5 and 6 are
clear, the interrupt request register is left exactly unchanged. -/
theorem C5_mode_sequence (st : LCDState)
    (hm : st.mode = 2) (hclock : st.modeClock = 0) (hline : st.currentLine = 0)
    (hly : st.ly = 0) (hen : st.lcdc &&& 128 ≠ 0)
    (h3 : st.stat &&& 8 = 0) (h5 : st.stat &&& 32 = 0) (h6 : st.stat &&& 64 = 0) :
    (UpdateLCD 80 st).mode = 3 ∧
    (UpdateLCD 172 (UpdateLCD 80 st)).mode = 0 ∧
    (UpdateLCD 204 (UpdateLCD 172 (UpdateLCD 80 st))).mode = 2 ∧
    (UpdateLCD 204 (UpdateLCD 172 (UpdateLCD 80 st))).currentLine = 1 ∧
    (UpdateLCD 204 (UpdateLCD 172 (UpdateLCD 80 st))).ly = 1 ∧
    (UpdateLCD 204 (UpdateLCD 172 (UpdateLCD 80 st))).iflag = st.iflag := by
  obtain ⟨mode, clock, line, lcdc, stat, ly, lyc, iflag⟩ := st
  simp only at hm hclock hline hly hen h3 h5 h6
  subst hm hclock hline hly
  rcases eq_or_ne lyc 0 with h0 | h0
  · subst h0
    simp +decide [UpdateLCD, lcdEnabled, i16wrap, setLCDStatus, setLCDInterrupt,
      hen, h3, h5, h6, lor_land_eq, land_land_eq]
  · have h0' : (0 = lyc) = False := eq_false (fun h => h0 h.symm)
    rcases eq_or_ne lyc 1 with h1 | h1
    · subst h1
      simp +decide [UpdateLCD, lcdEnabled, i16wrap, setLCDStatus, setLCDInterrupt,
        hen, h3, h5, h6, lor_land_eq, land_land_eq]
    · have h1' : (1 = lyc) = False := eq_false (fun h => h1 h.symm)
      simp +decide [UpdateLCD, lcdEnabled, i16wrap, setLCDStatus, setLCDInterrupt,
        hen, h3, h5, h6, h0', h1', lor_land_eq, land_land_eq]

/-- Witness for C5 at the concrete start state c5Start. -/
theorem C5_mode_sequence_witness :
    (UpdateLCD 80 c5Start).mode = 3 ∧
    (UpdateLCD 172 (UpdateLCD 80 c5Start)).mode = 0 ∧
    (UpdateLCD 204 (UpdateLCD 172 (UpdateLCD 80 c5Start))).mode = 2 ∧
    (UpdateLCD 204 (UpdateLCD 172 (UpdateLCD 80 c5Start))).currentLine = 1 ∧
    (UpdateLCD 204 (UpdateLCD 172 (UpdateLCD 80 c5Start))).ly = 1 ∧
    (UpdateLCD 204 (UpdateLCD 172 (UpdateLCD 80 c5Start))).iflag
      = c5Start.iflag :=
  C5_mode_sequence c5Start rfl rfl rfl rfl (by decide) (by decide) (by decide)
    (by decide)

/-- C9: with the alternate background map selected (control-register bit 3
set) the frame composition decodes only 1023 tile indices, one short of the
32 by 32 = 1024 the specification states, because the source slices
0x9C00:0x9FFF with an exclusive upper bound; with the primary map it
decodes the full 1024. -/
theorem C9_tilemap_count :
    (populateTiles altMapMem false).length = 1023 ∧
    (populateTiles priMapMem false).length = 1024 := by
  constructor
  · simp only [populateTiles, getTileMap, List.length_map]
    rw [if_pos (by decide)]
    simp [List.length_map, List.length_range]
  · simp only [populateTiles, getTileMap, List.length_map]
    rw [if_neg (by decide)]
    simp [List.length_map, List.length_range]

end Ppu

end Halken
